import Mathlib

/-!
Shallow embedding of the interactive core of the ViewMesh repository
(src/view_mesh/viewmesh.py): window geometry save/restore
(WindowGeometryManager), edge/corner resize handles (EdgeResizeHandle),
the highlight overlay state machine (HighlightOverlay), and the two
widget-tree renderings of the inspector window (the indented XML dump and
the interactive row list).

Machine integers are modelled as Int (Qt window coordinates are plain C
ints and none of the claims concerns 32-bit overflow); Python floats are
modelled as exact rationals.
-/

namespace ViewMesh

/-- Model of Qt QRect: stored as x, y, width, height. Qt internally keeps
x1, y1, x2, y2 with x2 = x + w - 1; the setter semantics below follow Qt:
setX and setY move one edge keeping the opposite edge fixed (so they change
the width or height), while setWidth and setHeight keep the top-left fixed. -/
structure QRect where
  x : Int
  y : Int
  w : Int
  h : Int
deriving DecidableEq, Repr

/-- QRect.setX moves the left edge, keeping the right edge x2 = x + w - 1 fixed. -/
def QRect.setX (r : QRect) (a : Int) : QRect := ⟨a, r.y, r.x + r.w - a, r.h⟩

/-- QRect.setY moves the top edge, keeping the bottom edge fixed. -/
def QRect.setY (r : QRect) (b : Int) : QRect := ⟨r.x, b, r.w, r.y + r.h - b⟩

/-- QRect.setWidth keeps the top-left corner fixed. -/
def QRect.setWidth (r : QRect) (w1 : Int) : QRect := ⟨r.x, r.y, w1, r.h⟩

/-- QRect.setHeight keeps the top-left corner fixed. -/
def QRect.setHeight (r : QRect) (h1 : Int) : QRect := ⟨r.x, r.y, r.w, h1⟩

/-- QRect.contains for a point: the rect spans pixels x .. x + w - 1. -/
def QRect.containsPoint (r : QRect) (p : Int × Int) : Bool :=
  decide (r.x ≤ p.1) && decide (p.1 ≤ r.x + r.w - 1) &&
  decide (r.y ≤ p.2) && decide (p.2 ≤ r.y + r.h - 1)

/-- QRect.intersects, for rects with nonnegative extents. -/
def QRect.intersects (a b : QRect) : Bool :=
  decide (max a.x b.x ≤ min (a.x + a.w - 1) (b.x + b.w - 1)) &&
  decide (max a.y b.y ≤ min (a.y + a.h - 1) (b.y + b.h - 1))

/-- QRect.center: Qt returns ((x1 + x2) / 2, (y1 + y2) / 2) with C integer
division, where x2 = x + w - 1. -/
def QRect.center (r : QRect) : Int × Int :=
  (Int.tdiv (r.x + (r.x + r.w - 1)) 2, Int.tdiv (r.y + (r.y + r.h - 1)) 2)

/-- The eight handle positions of viewmesh.py HandlePosition. -/
inductive HandlePosition where
  | TOP_LEFT
  | TOP
  | TOP_RIGHT
  | LEFT
  | RIGHT
  | BOTTOM_LEFT
  | BOTTOM
  | BOTTOM_RIGHT
deriving DecidableEq, Repr

/-- The .name attribute of a HandlePosition enum member, as used by the XML
dump for EdgeResizeHandle children. -/
def HandlePosition.pyName : HandlePosition → String
  | .TOP_LEFT => "TOP_LEFT"
  | .TOP => "TOP"
  | .TOP_RIGHT => "TOP_RIGHT"
  | .LEFT => "LEFT"
  | .RIGHT => "RIGHT"
  | .BOTTOM_LEFT => "BOTTOM_LEFT"
  | .BOTTOM => "BOTTOM"
  | .BOTTOM_RIGHT => "BOTTOM_RIGHT"

/-- Fallback applied to the minimum size hint in EdgeResizeHandle.mouseMoveEvent
(viewmesh.py lines 273-277): a non-positive hint component is replaced by 100. -/
def effectiveMin (m : Int) : Int := if m ≤ 0 then 100 else m

/-- EdgeResizeHandle.mouseMoveEvent (viewmesh.py lines 266-324), restricted to
the dragging branch: from the parent window geometry captured at press time
(startGeom), the minimum size hint (hintW, hintH) and the pointer delta
(dx, dy), compute the geometry passed to parent_window.setGeometry. -/
def mouseMoveResizeBranch (pos : HandlePosition) (startGeom : QRect)
    (hintW hintH dx dy : Int) : QRect :=
  let min_width := effectiveMin hintW
  let min_height := effectiveMin hintH
  let g := startGeom
  match pos with
    | .LEFT =>
        let new_width := startGeom.w - dx
        if min_width ≤ new_width then
          (g.setX (startGeom.x + dx)).setWidth new_width
        else g
    | .RIGHT => g.setWidth (startGeom.w + dx)
    | .TOP =>
        let new_height := startGeom.h - dy
        if min_height ≤ new_height then
          (g.setY (startGeom.y + dy)).setHeight new_height
        else g
    | .BOTTOM => g.setHeight (startGeom.h + dy)
    | .TOP_LEFT =>
        let new_width := startGeom.w - dx
        let new_height := startGeom.h - dy
        let ga := if min_width ≤ new_width then
            (g.setX (startGeom.x + dx)).setWidth new_width
          else g
        if min_height ≤ new_height then
          (ga.setY (startGeom.y + dy)).setHeight new_height
        else ga
    | .TOP_RIGHT =>
        let new_height := startGeom.h - dy
        let ga := g.setWidth (startGeom.w + dx)
        if min_height ≤ new_height then
          (ga.setY (startGeom.y + dy)).setHeight new_height
        else ga
    | .BOTTOM_LEFT =>
        let new_width := startGeom.w - dx
        let ga := g.setHeight (startGeom.h + dy)
        if min_width ≤ new_width then
          (ga.setX (startGeom.x + dx)).setWidth new_width
        else ga
    | .BOTTOM_RIGHT => (g.setWidth (startGeom.w + dx)).setHeight (startGeom.h + dy)

/-- The final minimum-size enforcement on the computed geometry
(viewmesh.py lines 319-321) applied after the per-edge branch above: the
full result of one mouseMoveEvent while dragging. -/
def mouseMoveResize (pos : HandlePosition) (startGeom : QRect)
    (hintW hintH dx dy : Int) : QRect :=
  let min_width := effectiveMin hintW
  let min_height := effectiveMin hintH
  let g1 := mouseMoveResizeBranch pos startGeom hintW hintH dx dy
  let g2 := if g1.w < min_width then g1.setWidth min_width else g1
  if g2.h < min_height then g2.setHeight min_height else g2

/-- A default-constructed QRect: x1 = 0, y1 = 0, x2 = -1, y2 = -1, hence
width = height = 0. Used by HighlightOverlay to reset target_rect. -/
def nullRect : QRect := ⟨0, 0, 0, 0⟩

/-- State of a HighlightOverlay (viewmesh.py lines 369-452): the target
rectangle in overlay-local coordinates, the sticky flag, the highlighting
flag, and whether the overlay widget is currently shown. -/
structure OverlayState where
  target_rect : QRect
  is_sticky : Bool
  is_highlighting : Bool
  overlayShown : Bool
deriving DecidableEq, Repr

/-- The data of a highlight target widget as HighlightOverlay.highlight_widget
reads it: its top-left already mapped into the overlay parent coordinate
space (mapFromGlobal of mapToGlobal), its size, and its visibility. -/
structure TargetWidget where
  mappedTopLeft : Int × Int
  size : Int × Int
  isVisible : Bool
deriving DecidableEq, Repr

/-- HighlightOverlay.clear_highlight (viewmesh.py lines 441-452): a sticky
highlight survives unless force_clear_sticky is passed; otherwise all
highlight state is reset and the overlay hidden. -/
def clear_highlight (st : OverlayState) (force_clear_sticky : Bool) : OverlayState :=
  if st.is_sticky && !force_clear_sticky then st
  else
    { target_rect := nullRect, is_sticky := false, is_highlighting := false,
      overlayShown := false }

/-- HighlightOverlay.highlight_widget (viewmesh.py lines 401-439): when the
target is present and visible, store its rectangle, the sticky flag, set
is_highlighting and show the overlay; otherwise fall through to
clear_highlight with the default force_clear_sticky = False. -/
def highlight_widget (st : OverlayState) (target : Option TargetWidget)
    (sticky : Bool) : OverlayState :=
  match target with
  | some tw =>
      if tw.isVisible then
        { target_rect := ⟨tw.mappedTopLeft.1, tw.mappedTopLeft.2, tw.size.1, tw.size.2⟩,
          is_sticky := sticky, is_highlighting := true, overlayShown := true }
      else clear_highlight st false
  | none => clear_highlight st false

/-- A physical display as the geometry manager reads it: QScreen.name,
QScreen.geometry and QScreen.availableGeometry. -/
structure Screen where
  name : String
  geometry : QRect
  availableGeometry : QRect
deriving DecidableEq, Repr

/-- The fields of WindowSettings (viewmesh.py lines 1047-1058) that
WindowGeometryManager reads and writes. Python floats for relative_position
are modelled as exact rationals. -/
structure GeomSettings where
  size : Int × Int
  position : Int × Int
  relative_position : ℚ × ℚ
  screen_name : String
  screen_geometry : Int × Int × Int × Int
deriving DecidableEq, Repr

/-- The window state save_geometry reads: visibility, minimized flag, the
current and normal geometry, and the screen QWidget.screen would report
(used as the fallback when the center of the geometry is on no screen). -/
structure WindowState where
  isVisible : Bool
  isMinimized : Bool
  geometry : QRect
  normalGeometry : QRect
  windowScreen : Option Screen
deriving DecidableEq, Repr

/-- QApplication.screenAt: the screen whose geometry contains the point. -/
def screenAt (screens : List Screen) (p : Int × Int) : Option Screen :=
  screens.find? (fun s => s.geometry.containsPoint p)

/-- Python int() truncates toward zero. -/
def pyInt (q : ℚ) : Int := if q < 0 then -⌊-q⌋ else ⌊q⌋

/-- The screen resolution step of save_geometry (viewmesh.py lines
126-128): the screen under the center of the effective geometry, else the
screen the window reports. -/
def resolvedSaveScreen (window : WindowState) (screens : List Screen) :
    Option Screen :=
  let cg := if window.isMinimized then window.normalGeometry else window.geometry
  match screenAt screens cg.center with
  | some s => some s
  | none => window.windowScreen

/-- WindowGeometryManager.save_geometry (viewmesh.py lines 111-154): returns
the updated settings record. The early return fires when the window is
neither visible nor minimized; otherwise the geometry (normalGeometry when
minimized) is written, the screen under its center (falling back to the
window screen) is resolved, and relative_position is recomputed, clamped to
[0, 1], with the fallback (0.1, 0.1) on a degenerate available area or when
no screen resolves. -/
def save_geometry (settings : GeomSettings) (window : WindowState)
    (screens : List Screen) : GeomSettings :=
  if !window.isVisible && !window.isMinimized then settings
  else
    let cg := if window.isMinimized then window.normalGeometry else window.geometry
    let s1 := { settings with size := (cg.w, cg.h), position := (cg.x, cg.y) }
    match resolvedSaveScreen window screens with
    | some scr =>
        let s2 := { s1 with
          screen_name := scr.name,
          screen_geometry :=
            (scr.geometry.x, scr.geometry.y, scr.geometry.w, scr.geometry.h) }
        if 0 < scr.availableGeometry.w ∧ 0 < scr.availableGeometry.h then
          let rel_x : ℚ :=
            ((cg.x - scr.availableGeometry.x : Int) : ℚ) / ((scr.availableGeometry.w : Int) : ℚ)
          let rel_y : ℚ :=
            ((cg.y - scr.availableGeometry.y : Int) : ℚ) / ((scr.availableGeometry.h : Int) : ℚ)
          { s2 with relative_position := (max 0 (min 1 rel_x), max 0 (min 1 rel_y)) }
        else
          { s2 with relative_position := (1 / 10, 1 / 10) }
    | none =>
        { s1 with screen_name := "", screen_geometry := (0, 0, 0, 0),
                  relative_position := (1 / 10, 1 / 10) }

/-- WindowGeometryManager.restore_geometry (viewmesh.py lines 41-109):
returns the final window rectangle. The target screen is resolved in
priority order (saved name; screen intersecting the saved position; the
main window screen when this is a secondary window whose main reference is
visible, else the primary screen; the primary screen again), and on total
failure the window is moved to the saved position unclamped. Otherwise the
candidate position comes from relative_position when a screen context was
meaningfully saved, else from the absolute position, and is then clamped
into the available area. The resize to settings.size is modelled as exact,
and the float product inside int(relative * extent) is computed in exact
rational arithmetic: the one-pixel truncation drift that IEEE doubles can
introduce there is not modelled. -/
def restore_geometry (settings : GeomSettings) (screens : List Screen)
    (isSecondaryWithVisibleMain : Bool) (mainRefScreen primaryScreen : Option Screen) :
    QRect :=
  let w := settings.size.1
  let h := settings.size.2
  let t1 : Option Screen :=
    if settings.screen_name ≠ "" then
      screens.find? (fun s => s.name == settings.screen_name)
    else none
  let t2 : Option Screen :=
    match t1 with
    | some s => some s
    | none =>
        if settings.position ≠ (0, 0) then
          screens.find? (fun s =>
            s.geometry.intersects ⟨settings.position.1, settings.position.2, 1, 1⟩)
        else none
  let t3 : Option Screen :=
    match t2 with
    | some s => some s
    | none => if isSecondaryWithVisibleMain then mainRefScreen else primaryScreen
  let t4 : Option Screen :=
    match t3 with
    | some s => some s
    | none => primaryScreen
  match t4 with
  | none => ⟨settings.position.1, settings.position.2, w, h⟩
  | some scr =>
      let avail := scr.availableGeometry
      let use_relative :=
        settings.screen_name ≠ "" ∧ settings.screen_geometry ≠ (0, 0, 0, 0)
      let p0 : Int × Int :=
        if use_relative then
          (avail.x + pyInt (settings.relative_position.1 * (avail.w : ℚ)),
           avail.y + pyInt (settings.relative_position.2 * (avail.h : ℚ)))
        else settings.position
      let px1 := max (avail.x - w + 20) (min p0.1 (avail.x + avail.w - 20))
      let py1 := max (avail.y - h + 20) (min p0.2 (avail.y + avail.h - 20))
      let px2 := max avail.x (min px1 (avail.x + avail.w - w))
      let py2 := max avail.y (min py1 (avail.y + avail.h - h))
      ⟨px2, py2, w, h⟩

/-- Attributes of one live widget as the two tree renderings of
InspectorWindow read them: metaObject className, objectName, geometry, the
value of a callable text attribute when the widget has one, windowTitle,
the (title, tooltip) tab list when the widget is a QTabWidget (empty
otherwise), whether the widget is the inspector window itself, whether it
carries a parent_window attribute equal to the inspector, whether it is an
EdgeResizeHandle (and at which position), and its visibility. -/
structure WidgetInfo where
  className : String
  objectName : String
  geometry : QRect
  textAttr : Option String
  winTitle : String
  tabs : List (String × String)
  isInspector : Bool
  inspectorOwned : Bool
  handlePos : Option HandlePosition
  isVisible : Bool
deriving DecidableEq, Repr

mutual
/-- A live widget tree: a widget and its QWidget children in native child
order (non-QWidget children such as QAction objects are skipped by both
walkers with only a diagnostic print, so they are not modelled). -/
inductive UiWidget where
  | node : WidgetInfo → WidgetChildren → UiWidget

inductive WidgetChildren where
  | nil : WidgetChildren
  | cons : UiWidget → WidgetChildren → WidgetChildren
end

def UiWidget.info : UiWidget → WidgetInfo
  | .node i _ => i

def WidgetChildren.length : WidgetChildren → Nat
  | .nil => 0
  | .cons _ rest => rest.length + 1

def WidgetChildren.isNil : WidgetChildren → Bool
  | .nil => true
  | .cons _ _ => false

/-- The check at viewmesh.py lines 750 and 901: child_widget == self, or
child_widget has a parent_window attribute equal to the inspector. -/
def UiWidget.excludedAsInspector (c : UiWidget) : Bool :=
  c.info.isInspector || c.info.inspectorOwned

/-- The isinstance EdgeResizeHandle check at viewmesh.py lines 752 and 903. -/
def UiWidget.isHandle (c : UiWidget) : Bool :=
  c.info.handlePos.isSome

/-- Either exclusion test, on widget attributes. -/
def excludedInfo (i : WidgetInfo) : Bool :=
  i.isInspector || i.inspectorOwned || i.handlePos.isSome

/-- Python str.replace of a double quote by the entity, as both walkers
apply to names, texts and titles. -/
def escQuot (s : String) : String :=
  ⟨s.data.flatMap (fun c => if c = '"' then "&quot;".data else [c])⟩

/-- Python str.replace of a newline by a space (XML text attribute). -/
def replNlSpace (s : String) : String :=
  ⟨s.data.map (fun c => if c = '\n' then ' ' else c)⟩

/-- Whether a string holds a newline character. -/
def hasNl (s : String) : Bool :=
  s.data.any (fun c => c = '\n')

/-- Python str.rstrip with a single strip character. -/
def pyRstrip (s : String) (c : Char) : String :=
  ⟨(s.data.reverse.dropWhile (fun d => d = c)).reverse⟩

/-- Python string repetition, for the two-space XML indent. -/
def strRepeat (s : String) (n : Nat) : String :=
  String.join (List.replicate n s)

/-- The coordinate tuple string used by both renderings:
(x,y,width,height). -/
def geomStr (r : QRect) : String :=
  "(" ++ toString r.x ++ "," ++ toString r.y ++ "," ++ toString r.w ++ ","
    ++ toString r.h ++ ")"

/-- The text of one interactive row label
(InspectorWindow._build_visual_widget_ui, viewmesh.py lines 694-721): the
joined prefix parts, the class name, and the bracketed attribute list with
an optional escaped name, the geometry, and an optional short single-line
text value escaped then truncated to 30 characters. -/
def visualLabelText (i : WidgetInfo) (pfx : String) : String :=
  let nameAttrs :=
    if i.objectName ≠ "" then ["name=\"" ++ escQuot i.objectName ++ "\""] else []
  let geomAttrs := ["geom=" ++ geomStr i.geometry]
  let textAttrs :=
    match i.textAttr with
    | some t =>
        if t ≠ "" ∧ hasNl (t.take 20) = false then
          ["text=\"" ++ (escQuot t).take 30 ++ "\""]
        else []
    | none => []
  pfx ++ i.className ++ " ["
    ++ String.intercalate " " (nameAttrs ++ geomAttrs ++ textAttrs) ++ "]"

mutual
/-- InspectorWindow._build_visual_widget_ui (viewmesh.py lines 693-812):
the flat ordered list of interactive rows, each recorded as the target
widget attributes paired with the label text. A row is appended for the
widget itself, then the QWidget children are enumerated with their index in
the unfiltered list; a child equal to the inspector or owned by it, or an
EdgeResizeHandle child, is skipped entirely; other children recurse with
the indent level bumped and a tree-drawing marker appended to the prefix
parts depending on whether the child is last in the unfiltered list. -/
def visitRows : UiWidget → Nat → List String → List (WidgetInfo × String)
  | .node i cs, indentLevel, pfxParts =>
      (i, visualLabelText i (String.join pfxParts)) ::
        visitRowsList cs cs.length 0 indentLevel pfxParts

def visitRowsList :
    WidgetChildren → Nat → Nat → Nat → List String → List (WidgetInfo × String)
  | .nil, _, _, _, _ => []
  | .cons c rest, total, idx, indentLevel, pfxParts =>
      (if c.excludedAsInspector || c.isHandle then []
       else
         visitRows c (indentLevel + 1)
           (pfxParts ++ [if idx = total - 1 then "    " else "│   "])) ++
      visitRowsList rest total (idx + 1) indentLevel pfxParts
end

/-- The widgets visited by the interactive row walk from a root. -/
def visitInfos (t : UiWidget) : List WidgetInfo :=
  (visitRows t 0 []).map Prod.fst

/-- One Tab line of the XML dump for a QTabWidget child page
(viewmesh.py lines 866-873). -/
def xmlTabLine (indent : String) (idx : Nat) (tab : String × String) : String :=
  let base := indent ++ "  <Tab index=\"" ++ toString idx ++ "\" title=\""
    ++ escQuot tab.1 ++ "\""
  (if tab.2 ≠ "" then base ++ " tooltip=\"" ++ escQuot tab.2 ++ "\"" else base)
    ++ " />\n"

/-- The self-closing XML line emitted for an EdgeResizeHandle child
(viewmesh.py lines 903-910), carrying its name, geometry and position. -/
def handleLine (indent : String) (i : WidgetInfo) (p : HandlePosition) : String :=
  indent ++ "  <" ++ i.className ++ " name=\"" ++ escQuot i.objectName
    ++ "\" geometry=\"" ++ geomStr i.geometry ++ "\" position=\"" ++ p.pyName
    ++ "\" />\n"

mutual
/-- InspectorWindow._build_widget_xml_string (viewmesh.py lines 821-918):
the indented XML dump. The opening tag carries the optional escaped name,
the optional text (escaped, newlines to spaces), the optional windowTitle
and the geometry; Tab lines follow for a QTabWidget; then each QWidget
child is rendered, with an inspector-related child skipped, an
EdgeResizeHandle child emitted as one self-closing line without recursion,
and any other child rendered recursively. When neither tabs nor QWidget
children exist (children are counted before the exclusion filter), the
element is rewritten self-closing via the two rstrip calls of the source. -/
def xmlString : UiWidget → Nat → String
  | .node i cs, indentLevel =>
      let indent := strRepeat "  " indentLevel
      let x0 := indent ++ "<" ++ i.className ++ " "
      let x1 := x0 ++
        (if i.objectName ≠ "" then "name=\"" ++ escQuot i.objectName ++ "\" " else "")
      let x2 := x1 ++
        (match i.textAttr with
         | some t =>
             if t ≠ "" then "text=\"" ++ replNlSpace (escQuot t) ++ "\" " else ""
         | none => "")
      let x3 := x2 ++
        (if i.winTitle ≠ "" then "windowTitle=\"" ++ escQuot i.winTitle ++ "\" " else "")
      let x4 := x3 ++ "geometry=\"" ++ geomStr i.geometry ++ "\">" ++ "\n"
      let x5 := x4 ++ String.join (i.tabs.enum.map (fun it => xmlTabLine indent it.1 it.2))
      let x6 := x5 ++ xmlChildrenString cs indentLevel
      let has_internal_content := !i.tabs.isEmpty || !cs.isNil
      if has_internal_content then
        x6 ++ indent ++ "</" ++ i.className ++ ">\n"
      else
        pyRstrip (pyRstrip x6 '\n') '>' ++ " />\n"

def xmlChildrenString : WidgetChildren → Nat → String
  | .nil, _ => ""
  | .cons c rest, indentLevel =>
      (if c.excludedAsInspector then ""
       else
         match c.info.handlePos with
         | some p => handleLine (strRepeat "  " indentLevel) c.info p
         | none => xmlString c (indentLevel + 1)) ++
      xmlChildrenString rest indentLevel
end

/-- A fixed widget record flagged as inspector-related; its other fields
are never read by either walker. -/
def dummyInspectorInfo : WidgetInfo :=
  { className := "", objectName := "", geometry := nullRect, textAttr := none,
    winTitle := "", tabs := [], isInspector := true, inspectorOwned := false,
    handlePos := none, isVisible := false }

mutual
/-- Replaces every excluded child (inspector-related or resize handle) by a
childless dummy inspector node, recursively below the surviving children.
Row-walk invariance under this scrub states that excluded children
contribute no row and their subtrees are never entered. -/
def scrubVis : UiWidget → UiWidget
  | .node i cs => .node i (scrubVisList cs)

def scrubVisList : WidgetChildren → WidgetChildren
  | .nil => .nil
  | .cons c rest =>
      .cons
        (if c.excludedAsInspector || c.isHandle then .node dummyInspectorInfo .nil
         else scrubVis c)
        (scrubVisList rest)
end

mutual
/-- Replaces every inspector-related child by a childless dummy inspector
node and strips the children of every resize-handle child, recursively
below the surviving children. XML invariance under this scrub states that
an inspector-related child contributes nothing of its own, and a handle
child contributes only the one line built from its own attributes with no
recursion into its subtree. -/
def scrubXml : UiWidget → UiWidget
  | .node i cs => .node i (scrubXmlList cs)

def scrubXmlList : WidgetChildren → WidgetChildren
  | .nil => .nil
  | .cons c rest =>
      .cons
        (if c.excludedAsInspector then .node dummyInspectorInfo .nil
         else if c.isHandle then .node c.info .nil
         else scrubXml c)
        (scrubXmlList rest)
end

/-- Example fixture: attributes of a main window root widget. -/
def exRootInfo : WidgetInfo :=
  { className := "ViewMeshApp", objectName := "", geometry := ⟨0, 0, 800, 600⟩,
    textAttr := none, winTitle := "", tabs := [], isInspector := false,
    inspectorOwned := false, handlePos := none, isVisible := true }

/-- Example fixture: attributes of an EdgeResizeHandle child. -/
def exHandleInfo : WidgetInfo :=
  { className := "EdgeResizeHandle", objectName := "", geometry := ⟨0, 0, 5, 5⟩,
    textAttr := none, winTitle := "", tabs := [], isInspector := false,
    inspectorOwned := false, handlePos := some HandlePosition.TOP_LEFT,
    isVisible := true }

/-- Example fixture: a main window with one EdgeResizeHandle child. -/
def exHandleTree : UiWidget :=
  .node exRootInfo (.cons (.node exHandleInfo .nil) .nil)

/-- Example fixture: attributes of a plain container child. -/
def c8ChildInfo : WidgetInfo :=
  { className := "QWidget", objectName := "container", geometry := ⟨0, 0, 400, 300⟩,
    textAttr := none, winTitle := "", tabs := [], isInspector := false,
    inspectorOwned := false, handlePos := none, isVisible := true }

/-- Example fixture: attributes of an invisible grandchild label. -/
def c8InvInfo : WidgetInfo :=
  { className := "QLabel", objectName := "hidden_label", geometry := ⟨0, 0, 50, 20⟩,
    textAttr := some "hi", winTitle := "", tabs := [], isInspector := false,
    inspectorOwned := false, handlePos := none, isVisible := false }

/-- Example fixture: attributes of a visible grandchild label. -/
def c8VisInfo : WidgetInfo :=
  { className := "QLabel", objectName := "shown_label", geometry := ⟨0, 30, 50, 20⟩,
    textAttr := some "yo", winTitle := "", tabs := [], isInspector := false,
    inspectorOwned := false, handlePos := none, isVisible := true }

/-- Example fixture: a depth-3 tree whose first grandchild is invisible and
whose second grandchild is its visible sibling. -/
def c8Tree : UiWidget :=
  .node exRootInfo
    (.cons
      (.node c8ChildInfo
        (.cons (.node c8InvInfo .nil) (.cons (.node c8VisInfo .nil) .nil)))
      .nil)

/-! Theorems. -/

/-- The final clamp of EdgeResizeHandle.mouseMoveEvent (viewmesh.py lines
319-321) leaves both dimensions at least the given minima, whatever the
per-edge adjustments produced. -/
theorem resize_clamp_bounds (g1 : QRect) (mw mh : Int) :
    mw ≤ ((fun g2 => if g2.h < mh then g2.setHeight mh else g2)
        (if g1.w < mw then g1.setWidth mw else g1)).w ∧
    mh ≤ ((fun g2 => if g2.h < mh then g2.setHeight mh else g2)
        (if g1.w < mw then g1.setWidth mw else g1)).h := by
  dsimp only
  simp only [QRect.setWidth, QRect.setHeight]
  split_ifs <;> refine ⟨?_, ?_⟩ <;> simp_all

theorem effectiveMin_ge (m : Int) : m ≤ effectiveMin m := by
  unfold effectiveMin; split <;> omega

/-- C1: for every handle position, start geometry, minimum size hint and
drag delta, the geometry applied by EdgeResizeHandle.mouseMoveEvent has
width and height at least the configured minimum (the minimum size hint,
with the non-positive-hint fallback of 100 the code substitutes). -/
theorem c1_resize_never_below_minimum (pos : HandlePosition) (startGeom : QRect)
    (hintW hintH dx dy : Int) :
    effectiveMin hintW ≤ (mouseMoveResize pos startGeom hintW hintH dx dy).w ∧
    effectiveMin hintH ≤ (mouseMoveResize pos startGeom hintW hintH dx dy).h ∧
    hintW ≤ (mouseMoveResize pos startGeom hintW hintH dx dy).w ∧
    hintH ≤ (mouseMoveResize pos startGeom hintW hintH dx dy).h := by
  have hb := resize_clamp_bounds
    (mouseMoveResizeBranch pos startGeom hintW hintH dx dy)
    (effectiveMin hintW) (effectiveMin hintH)
  exact ⟨hb.1, hb.2, le_trans (effectiveMin_ge hintW) hb.1,
    le_trans (effectiveMin_ge hintH) hb.2⟩

/-- C2 counterexample: at TOP_LEFT from start rect (100,100,400,300) with
minimum size (100,100) and drag delta (+350,+250), the applied geometry is
the unchanged start rect, so its width is 400 and not 100: the claimed
clamping of width and height down to the minimum does not happen. -/
theorem c2_counterexample :
    mouseMoveResize .TOP_LEFT ⟨100, 100, 400, 300⟩ 100 100 350 250
      = ⟨100, 100, 400, 300⟩ ∧
    ¬ ((mouseMoveResize .TOP_LEFT ⟨100, 100, 400, 300⟩ 100 100 350 250).w = 100 ∧
       (mouseMoveResize .TOP_LEFT ⟨100, 100, 400, 300⟩ 100 100 350 250).h = 100) := by
  decide

/-- C2 amended: at TOP_LEFT from start rect (100,100,400,300) with minimum
size (100,100) and drag delta (+350,+250), neither the horizontal nor the
vertical adjustment is applied (400 - 350 and 300 - 250 both fall below the
minimum 100), so the resulting window rect equals the start rect. -/
theorem c2_amended_top_left_large_delta :
    mouseMoveResize .TOP_LEFT ⟨100, 100, 400, 300⟩ 100 100 350 250
      = ⟨100, 100, 400, 300⟩ := by
  decide

/-- C10: when the minimum size hint reports a non-positive width
(respectively height), the geometry applied by mouseMoveEvent has width
(respectively height) at least the hard-coded floor of 100 pixels. -/
theorem c10_nonpositive_hint_uses_floor_100 (pos : HandlePosition)
    (startGeom : QRect) (hintW hintH dx dy : Int) :
    (hintW ≤ 0 → 100 ≤ (mouseMoveResize pos startGeom hintW hintH dx dy).w) ∧
    (hintH ≤ 0 → 100 ≤ (mouseMoveResize pos startGeom hintW hintH dx dy).h) := by
  have hb := resize_clamp_bounds
    (mouseMoveResizeBranch pos startGeom hintW hintH dx dy)
    (effectiveMin hintW) (effectiveMin hintH)
  constructor
  · intro hw
    have hmw : effectiveMin hintW = 100 := by unfold effectiveMin; simp [hw]
    have h1 : effectiveMin hintW
        ≤ (mouseMoveResize pos startGeom hintW hintH dx dy).w := hb.1
    rw [hmw] at h1
    exact h1
  · intro hh
    have hmh : effectiveMin hintH = 100 := by unfold effectiveMin; simp [hh]
    have h2 : effectiveMin hintH
        ≤ (mouseMoveResize pos startGeom hintW hintH dx dy).h := hb.2
    rw [hmh] at h2
    exact h2

/-- C10 witness: instantiation at TOP_LEFT with hints (0, -1). -/
theorem c10_witness :
    100 ≤ (mouseMoveResize .TOP_LEFT ⟨0, 0, 50, 50⟩ 0 (-1) 5 5).w ∧
    100 ≤ (mouseMoveResize .TOP_LEFT ⟨0, 0, 50, 50⟩ 0 (-1) 5 5).h :=
  ⟨(c10_nonpositive_hint_uses_floor_100 .TOP_LEFT ⟨0, 0, 50, 50⟩ 0 (-1) 5 5).1
      (by decide),
   (c10_nonpositive_hint_uses_floor_100 .TOP_LEFT ⟨0, 0, 50, 50⟩ 0 (-1) 5 5).2
      (by decide)⟩

/-- C3: from any overlay state, highlighting a visible widget with
sticky = true and then clearing without force leaves is_highlighting true;
a subsequent forced clear leaves is_highlighting and is_sticky false with
the target rectangle reset to the null rect. -/
theorem c3_sticky_survives_plain_clear (st : OverlayState) (tw : TargetWidget)
    (hvis : tw.isVisible = true) :
    (clear_highlight (highlight_widget st (some tw) true) false).is_highlighting
        = true ∧
    (clear_highlight (clear_highlight (highlight_widget st (some tw) true) false)
        true).is_highlighting = false ∧
    (clear_highlight (clear_highlight (highlight_widget st (some tw) true) false)
        true).is_sticky = false ∧
    (clear_highlight (clear_highlight (highlight_widget st (some tw) true) false)
        true).target_rect = nullRect := by
  simp [highlight_widget, clear_highlight, hvis]

/-- C3 witness: instantiation at the initial overlay state and a concrete
visible widget. -/
theorem c3_witness :
    (clear_highlight (highlight_widget ⟨nullRect, false, false, false⟩
        (some ⟨(0, 0), (10, 10), true⟩) true) false).is_highlighting = true ∧
    (clear_highlight (clear_highlight (highlight_widget
        ⟨nullRect, false, false, false⟩ (some ⟨(0, 0), (10, 10), true⟩) true)
        false) true).is_highlighting = false ∧
    (clear_highlight (clear_highlight (highlight_widget
        ⟨nullRect, false, false, false⟩ (some ⟨(0, 0), (10, 10), true⟩) true)
        false) true).is_sticky = false ∧
    (clear_highlight (clear_highlight (highlight_widget
        ⟨nullRect, false, false, false⟩ (some ⟨(0, 0), (10, 10), true⟩) true)
        false) true).target_rect = nullRect :=
  c3_sticky_survives_plain_clear ⟨nullRect, false, false, false⟩
    ⟨(0, 0), (10, 10), true⟩ rfl

/-- C9 counterexample: starting from a state with an active sticky
highlight (reached by highlighting a visible widget with sticky = true),
calling highlight_widget with a null target and sticky = false leaves
is_highlighting true, because the fall-through clear is a plain clear and
the sticky highlight survives it — contradicting the claim that every
prior state ends with is_highlighting false. -/
theorem c9_counterexample :
    (highlight_widget
        (highlight_widget ⟨nullRect, false, false, false⟩
          (some ⟨(0, 0), (10, 10), true⟩) true)
        none false).is_highlighting = true := by
  decide

/-- C9 amended: calling highlight_widget with a null or invisible target
performs no new highlight and falls through to a plain clear; when no
sticky highlight is active, the result has is_highlighting false, is_sticky
false and the target rectangle reset (an active sticky highlight is
preserved instead). -/
theorem c9_null_or_invisible_clears_when_not_sticky (st : OverlayState)
    (target : Option TargetWidget) (sticky : Bool)
    (hinv : ∀ tw, target = some tw → tw.isVisible = false)
    (hns : st.is_sticky = false) :
    (highlight_widget st target sticky).is_highlighting = false ∧
    (highlight_widget st target sticky).is_sticky = false ∧
    (highlight_widget st target sticky).target_rect = nullRect := by
  cases target with
  | none => simp [highlight_widget, clear_highlight, hns]
  | some tw =>
      have h := hinv tw rfl
      simp [highlight_widget, clear_highlight, hns, h]

/-- C9 witness: instantiation at a non-sticky state and a null target. -/
theorem c9_witness :
    (highlight_widget ⟨⟨1, 2, 3, 4⟩, false, true, true⟩ none false).is_highlighting
        = false ∧
    (highlight_widget ⟨⟨1, 2, 3, 4⟩, false, true, true⟩ none false).is_sticky
        = false ∧
    (highlight_widget ⟨⟨1, 2, 3, 4⟩, false, true, true⟩ none false).target_rect
        = nullRect :=
  c9_null_or_invisible_clears_when_not_sticky ⟨⟨1, 2, 3, 4⟩, false, true, true⟩
    none false (fun _tw h => nomatch h) rfl

/-- C5: whenever save_geometry actually writes the store (the window is
visible or minimized, so the early return does not fire), both components
of the stored relative_position land in [0, 1], for every display
configuration including degenerate available areas and the no-screen case. -/
theorem c5_relative_position_in_unit_interval (settings : GeomSettings)
    (window : WindowState) (screens : List Screen)
    (h : window.isVisible = true ∨ window.isMinimized = true) :
    0 ≤ (save_geometry settings window screens).relative_position.1 ∧
    (save_geometry settings window screens).relative_position.1 ≤ 1 ∧
    0 ≤ (save_geometry settings window screens).relative_position.2 ∧
    (save_geometry settings window screens).relative_position.2 ≤ 1 := by
  have hguard : (!window.isVisible && !window.isMinimized) = false := by
    rcases h with h | h <;> simp [h]
  unfold save_geometry
  rw [hguard]
  simp only [Bool.false_eq_true, if_false]
  split <;> split_ifs <;>
    refine ⟨?_, ?_, ?_, ?_⟩ <;>
    first
      | exact le_max_left _ _
      | exact max_le zero_le_one (min_le_left _ _)
      | norm_num

/-- C5 witness: instantiation at a visible window on one ordinary screen. -/
theorem c5_witness :
    0 ≤ (save_geometry ⟨(1024, 768), (100, 100), (1 / 10, 1 / 10), "", (0, 0, 0, 0)⟩
        ⟨true, false, ⟨100, 100, 400, 300⟩, ⟨100, 100, 400, 300⟩, none⟩
        [⟨"S", ⟨0, 0, 1000, 800⟩, ⟨0, 0, 1000, 800⟩⟩]).relative_position.1 ∧
    (save_geometry ⟨(1024, 768), (100, 100), (1 / 10, 1 / 10), "", (0, 0, 0, 0)⟩
        ⟨true, false, ⟨100, 100, 400, 300⟩, ⟨100, 100, 400, 300⟩, none⟩
        [⟨"S", ⟨0, 0, 1000, 800⟩, ⟨0, 0, 1000, 800⟩⟩]).relative_position.1 ≤ 1 ∧
    0 ≤ (save_geometry ⟨(1024, 768), (100, 100), (1 / 10, 1 / 10), "", (0, 0, 0, 0)⟩
        ⟨true, false, ⟨100, 100, 400, 300⟩, ⟨100, 100, 400, 300⟩, none⟩
        [⟨"S", ⟨0, 0, 1000, 800⟩, ⟨0, 0, 1000, 800⟩⟩]).relative_position.2 ∧
    (save_geometry ⟨(1024, 768), (100, 100), (1 / 10, 1 / 10), "", (0, 0, 0, 0)⟩
        ⟨true, false, ⟨100, 100, 400, 300⟩, ⟨100, 100, 400, 300⟩, none⟩
        [⟨"S", ⟨0, 0, 1000, 800⟩, ⟨0, 0, 1000, 800⟩⟩]).relative_position.2 ≤ 1 :=
  c5_relative_position_in_unit_interval _ _ _ (Or.inl rfl)

/-- C6 counterexample: a visible window whose resolved screen has a
zero-width available area; the previously stored relative_position
(1/2, 1/2) is not preserved — save_geometry overwrites it with the
fallback (0.1, 0.1). -/
theorem c6_counterexample :
    (save_geometry ⟨(1024, 768), (100, 100), (1 / 2, 1 / 2), "", (0, 0, 0, 0)⟩
        ⟨true, false, ⟨100, 100, 400, 300⟩, ⟨100, 100, 400, 300⟩, none⟩
        [⟨"S", ⟨0, 0, 1000, 800⟩, ⟨0, 0, 0, 800⟩⟩]).relative_position
      = (1 / 10, 1 / 10) ∧
    (save_geometry ⟨(1024, 768), (100, 100), (1 / 2, 1 / 2), "", (0, 0, 0, 0)⟩
        ⟨true, false, ⟨100, 100, 400, 300⟩, ⟨100, 100, 400, 300⟩, none⟩
        [⟨"S", ⟨0, 0, 1000, 800⟩, ⟨0, 0, 0, 800⟩⟩]).relative_position
      ≠ (1 / 2, 1 / 2) := by
  have hval :
      (save_geometry ⟨(1024, 768), (100, 100), (1 / 2, 1 / 2), "", (0, 0, 0, 0)⟩
        ⟨true, false, ⟨100, 100, 400, 300⟩, ⟨100, 100, 400, 300⟩, none⟩
        [⟨"S", ⟨0, 0, 1000, 800⟩, ⟨0, 0, 0, 800⟩⟩]).relative_position
        = (1 / 10, 1 / 10) := by
    unfold save_geometry resolvedSaveScreen screenAt
    norm_num [List.find?, QRect.containsPoint, QRect.center, Int.tdiv]
  refine ⟨hval, ?_⟩
  rw [hval]
  norm_num

/-- C6 amended: when save_geometry writes the store and resolves a screen
whose available area has zero (or negative) width or height, the stored
relative_position is set to the in-range fallback (0.1, 0.1) — not left at
its previous value — and no division by the degenerate extent is
performed. -/
theorem c6_degenerate_area_writes_fallback (settings : GeomSettings)
    (window : WindowState) (screens : List Screen) (scr : Screen)
    (h : window.isVisible = true ∨ window.isMinimized = true)
    (hres : resolvedSaveScreen window screens = some scr)
    (hdeg : ¬ (0 < scr.availableGeometry.w ∧ 0 < scr.availableGeometry.h)) :
    (save_geometry settings window screens).relative_position
      = (1 / 10, 1 / 10) := by
  have hguard : (!window.isVisible && !window.isMinimized) = false := by
    rcases h with h | h <;> simp [h]
  unfold save_geometry
  rw [hguard]
  simp only [Bool.false_eq_true, if_false, hres]
  rw [if_neg hdeg]

theorem pyInt_intCast (n : Int) : pyInt (n : ℚ) = n := by
  unfold pyInt
  split_ifs
  · rw [← Int.cast_neg, Int.floor_intCast, neg_neg]
  · exact Int.floor_intCast n

/-- Evaluation of save_geometry for a visible, non-minimized window on a
single screen whose geometry contains the window center and whose available
area has positive extents. -/
theorem save_geometry_single_screen (settings : GeomSettings) (wnorm : QRect)
    (wscr : Option Screen) (x y w h gx gy gw gh ax ay aw ah : Int) (sname : String)
    (hcp : QRect.containsPoint ⟨gx, gy, gw, gh⟩ (QRect.center ⟨x, y, w, h⟩) = true)
    (haw : 0 < aw) (hah : 0 < ah) :
    save_geometry settings ⟨true, false, ⟨x, y, w, h⟩, wnorm, wscr⟩
        [⟨sname, ⟨gx, gy, gw, gh⟩, ⟨ax, ay, aw, ah⟩⟩]
      = { settings with
          size := (w, h), position := (x, y),
          relative_position :=
            (max 0 (min 1 (((x - ax : Int) : ℚ) / ((aw : Int) : ℚ))),
             max 0 (min 1 (((y - ay : Int) : ℚ) / ((ah : Int) : ℚ)))),
          screen_name := sname,
          screen_geometry := (gx, gy, gw, gh) } := by
  have hp : (fun s : Screen => s.geometry.containsPoint (QRect.center ⟨x, y, w, h⟩))
      ⟨sname, ⟨gx, gy, gw, gh⟩, ⟨ax, ay, aw, ah⟩⟩ = true := hcp
  have hfind0 : List.find?
      (fun s : Screen => s.geometry.containsPoint (QRect.center ⟨x, y, w, h⟩))
      [⟨sname, ⟨gx, gy, gw, gh⟩, ⟨ax, ay, aw, ah⟩⟩]
      = some ⟨sname, ⟨gx, gy, gw, gh⟩, ⟨ax, ay, aw, ah⟩⟩ :=
    List.find?_cons_of_pos _ hp
  unfold save_geometry resolvedSaveScreen screenAt
  simp only [Bool.not_true, Bool.not_false, Bool.false_and, Bool.false_eq_true,
    if_false, hfind0]
  rw [if_pos ⟨haw, hah⟩]

/-- C4 counterexample: a visible window at (700,100) of size 400 x 300 on a
1000 x 800 display hangs 100 pixels past the right edge of the available
area. save_geometry stores it faithfully, but restore_geometry clamps the
far edge back inside the available area, yielding x = 600: the round trip
does not reproduce the original rectangle. -/
theorem c4_counterexample :
    restore_geometry
        (save_geometry ⟨(1024, 768), (100, 100), (1 / 10, 1 / 10), "", (0, 0, 0, 0)⟩
          ⟨true, false, ⟨700, 100, 400, 300⟩, ⟨700, 100, 400, 300⟩, none⟩
          [⟨"S", ⟨0, 0, 1000, 800⟩, ⟨0, 0, 1000, 800⟩⟩])
        [⟨"S", ⟨0, 0, 1000, 800⟩, ⟨0, 0, 1000, 800⟩⟩] false none none
      = ⟨600, 100, 400, 300⟩ ∧
    (⟨600, 100, 400, 300⟩ : QRect) ≠ ⟨700, 100, 400, 300⟩ := by
  have hsave :
      save_geometry ⟨(1024, 768), (100, 100), (1 / 10, 1 / 10), "", (0, 0, 0, 0)⟩
          ⟨true, false, ⟨700, 100, 400, 300⟩, ⟨700, 100, 400, 300⟩, none⟩
          [⟨"S", ⟨0, 0, 1000, 800⟩, ⟨0, 0, 1000, 800⟩⟩]
        = ⟨(400, 300), (700, 100), (7 / 10, 1 / 8), "S", (0, 0, 1000, 800)⟩ := by
    rw [save_geometry_single_screen _ _ _ 700 100 400 300 0 0 1000 800 0 0 1000 800
      "S" (by decide) (by decide) (by decide)]
    norm_num
  rw [hsave]
  refine ⟨?_, by decide⟩
  have hq : (fun s : Screen => s.name == "S")
      ⟨"S", ⟨0, 0, 1000, 800⟩, ⟨0, 0, 1000, 800⟩⟩ = true := by decide
  have hfind1 : List.find? (fun s : Screen => s.name == "S")
      [⟨"S", ⟨0, 0, 1000, 800⟩, ⟨0, 0, 1000, 800⟩⟩]
      = some ⟨"S", ⟨0, 0, 1000, 800⟩, ⟨0, 0, 1000, 800⟩⟩ :=
    List.find?_cons_of_pos _ hq
  unfold restore_geometry
  dsimp only
  rw [if_pos (by decide : ("S" : String) ≠ ""), hfind1]
  dsimp only
  rw [if_pos ⟨(by decide : ("S" : String) ≠ ""),
    (by decide : ((0 : Int), (0 : Int), (1000 : Int), (800 : Int)) ≠ (0, 0, 0, 0))⟩]
  have h1 : (7 / 10 : ℚ) * ((1000 : Int) : ℚ) = ((700 : Int) : ℚ) := by norm_num
  have h2 : (1 / 8 : ℚ) * ((800 : Int) : ℚ) = ((100 : Int) : ℚ) := by norm_num
  rw [h1, h2, pyInt_intCast, pyInt_intCast]
  decide

/-- C4 amended: with an identical store and an unchanged single display,
the round trip reproduces the original window size exactly, and places the
window fully inside the display's available area again, whenever
save_geometry writes from a visible, non-minimized window that lies fully
inside the available area of its (named) display with both dimensions at
least 20. Exact reproduction of the top-left position is deliberately not
claimed: restore clamps windows hanging outside the available area back
inside, and the float fraction arithmetic of the real save and restore can
shift a fully visible window by one pixel of truncation drift. The theorem
therefore quantifies over an arbitrary stored relative_position (covering
every value the float computation could produce, since the position it
induces through pyInt ranges over all integers): the integer-valued fields
written by save_geometry match the window exactly, and restore_geometry
yields the saved size at a position keeping the window inside the available
area, whatever the fallback flags and screens passed to restore. -/
theorem c4_round_trip_size_and_containment (settings : GeomSettings)
    (win : WindowState) (scr : Screen) (b : Bool) (mref prim : Option Screen)
    (rel : ℚ × ℚ)
    (hvis : win.isVisible = true) (hmin : win.isMinimized = false)
    (hname : scr.name ≠ "")
    (hcenter : scr.geometry.containsPoint win.geometry.center = true)
    (hx1 : scr.availableGeometry.x ≤ win.geometry.x)
    (hx2 : win.geometry.x + win.geometry.w
      ≤ scr.availableGeometry.x + scr.availableGeometry.w)
    (hy1 : scr.availableGeometry.y ≤ win.geometry.y)
    (hy2 : win.geometry.y + win.geometry.h
      ≤ scr.availableGeometry.y + scr.availableGeometry.h)
    (hw : 20 ≤ win.geometry.w) (hh : 20 ≤ win.geometry.h) :
    ((save_geometry settings win [scr]).size
        = (win.geometry.w, win.geometry.h) ∧
     (save_geometry settings win [scr]).position
        = (win.geometry.x, win.geometry.y) ∧
     (save_geometry settings win [scr]).screen_name = scr.name) ∧
    ((restore_geometry
        { save_geometry settings win [scr] with relative_position := rel }
        [scr] b mref prim).w = win.geometry.w ∧
     (restore_geometry
        { save_geometry settings win [scr] with relative_position := rel }
        [scr] b mref prim).h = win.geometry.h ∧
     scr.availableGeometry.x
        ≤ (restore_geometry
            { save_geometry settings win [scr] with relative_position := rel }
            [scr] b mref prim).x ∧
     (restore_geometry
        { save_geometry settings win [scr] with relative_position := rel }
        [scr] b mref prim).x + win.geometry.w
        ≤ scr.availableGeometry.x + scr.availableGeometry.w ∧
     scr.availableGeometry.y
        ≤ (restore_geometry
            { save_geometry settings win [scr] with relative_position := rel }
            [scr] b mref prim).y ∧
     (restore_geometry
        { save_geometry settings win [scr] with relative_position := rel }
        [scr] b mref prim).y + win.geometry.h
        ≤ scr.availableGeometry.y + scr.availableGeometry.h) := by
  obtain ⟨sname, sgeo, savail⟩ := scr
  obtain ⟨gx, gy, gw, gh⟩ := sgeo
  obtain ⟨ax, ay, aw, ah⟩ := savail
  obtain ⟨wvis, wmin, wgeom, wnorm, wscr⟩ := win
  obtain ⟨x, y, w, h⟩ := wgeom
  have hvis2 : wvis = true := hvis
  have hmin2 : wmin = false := hmin
  subst hvis2
  subst hmin2
  have hax : ax ≤ x := hx1
  have haxw : x + w ≤ ax + aw := hx2
  have hay : ay ≤ y := hy1
  have hayh : y + h ≤ ay + ah := hy2
  have hw20 : (20 : Int) ≤ w := hw
  have hh20 : (20 : Int) ≤ h := hh
  have hsn : sname ≠ "" := hname
  have hcp : QRect.containsPoint ⟨gx, gy, gw, gh⟩ (QRect.center ⟨x, y, w, h⟩)
      = true := hcenter
  have haw : 0 < aw := by omega
  have hah : 0 < ah := by omega
  have hgw1 : 1 ≤ gw := by
    have hcp2 := hcp
    unfold QRect.containsPoint at hcp2
    simp only [Bool.and_eq_true, decide_eq_true_eq] at hcp2
    omega
  have htup : (gx, gy, gw, gh) ≠ ((0 : Int), (0 : Int), (0 : Int), (0 : Int)) := by
    simp only [ne_eq, Prod.mk.injEq, not_and]
    intro h1 h2 h3
    omega
  have hq : (fun s : Screen => s.name == sname)
      ⟨sname, ⟨gx, gy, gw, gh⟩, ⟨ax, ay, aw, ah⟩⟩ = true := by
    simp
  have hfind1 : List.find? (fun s : Screen => s.name == sname)
      [⟨sname, ⟨gx, gy, gw, gh⟩, ⟨ax, ay, aw, ah⟩⟩]
      = some ⟨sname, ⟨gx, gy, gw, gh⟩, ⟨ax, ay, aw, ah⟩⟩ :=
    List.find?_cons_of_pos _ hq
  rw [save_geometry_single_screen settings wnorm wscr x y w h gx gy gw gh
    ax ay aw ah sname hcp haw hah]
  refine ⟨⟨rfl, rfl, rfl⟩, ?_⟩
  unfold restore_geometry
  dsimp only
  rw [if_pos hsn, hfind1]
  dsimp only
  rw [if_pos ⟨hsn, htup⟩]
  generalize pyInt (rel.1 * ((aw : Int) : ℚ)) = px
  generalize pyInt (rel.2 * ((ah : Int) : ℚ)) = py
  refine ⟨rfl, rfl, ?_, ?_, ?_, ?_⟩ <;> dsimp only <;> omega

/-- C4 witness: size round trip and containment at a fully visible concrete
window, with a stored relative_position perturbed off the exact fraction
(as float truncation can leave it). -/
theorem c4_witness :
    ((save_geometry ⟨(1024, 768), (100, 100), (1 / 10, 1 / 10), "", (0, 0, 0, 0)⟩
        ⟨true, false, ⟨100, 100, 400, 300⟩, ⟨100, 100, 400, 300⟩, none⟩
        [⟨"S", ⟨0, 0, 1000, 800⟩, ⟨0, 0, 1000, 800⟩⟩]).size = (400, 300) ∧
     (save_geometry ⟨(1024, 768), (100, 100), (1 / 10, 1 / 10), "", (0, 0, 0, 0)⟩
        ⟨true, false, ⟨100, 100, 400, 300⟩, ⟨100, 100, 400, 300⟩, none⟩
        [⟨"S", ⟨0, 0, 1000, 800⟩, ⟨0, 0, 1000, 800⟩⟩]).position = (100, 100) ∧
     (save_geometry ⟨(1024, 768), (100, 100), (1 / 10, 1 / 10), "", (0, 0, 0, 0)⟩
        ⟨true, false, ⟨100, 100, 400, 300⟩, ⟨100, 100, 400, 300⟩, none⟩
        [⟨"S", ⟨0, 0, 1000, 800⟩, ⟨0, 0, 1000, 800⟩⟩]).screen_name = "S") ∧
    ((restore_geometry
        { save_geometry ⟨(1024, 768), (100, 100), (1 / 10, 1 / 10), "", (0, 0, 0, 0)⟩
            ⟨true, false, ⟨100, 100, 400, 300⟩, ⟨100, 100, 400, 300⟩, none⟩
            [⟨"S", ⟨0, 0, 1000, 800⟩, ⟨0, 0, 1000, 800⟩⟩] with
          relative_position := (29 / 800, 1 / 8) }
        [⟨"S", ⟨0, 0, 1000, 800⟩, ⟨0, 0, 1000, 800⟩⟩] false none none).w = 400 ∧
     (restore_geometry
        { save_geometry ⟨(1024, 768), (100, 100), (1 / 10, 1 / 10), "", (0, 0, 0, 0)⟩
            ⟨true, false, ⟨100, 100, 400, 300⟩, ⟨100, 100, 400, 300⟩, none⟩
            [⟨"S", ⟨0, 0, 1000, 800⟩, ⟨0, 0, 1000, 800⟩⟩] with
          relative_position := (29 / 800, 1 / 8) }
        [⟨"S", ⟨0, 0, 1000, 800⟩, ⟨0, 0, 1000, 800⟩⟩] false none none).h = 300 ∧
     (0 : Int)
        ≤ (restore_geometry
            { save_geometry
                ⟨(1024, 768), (100, 100), (1 / 10, 1 / 10), "", (0, 0, 0, 0)⟩
                ⟨true, false, ⟨100, 100, 400, 300⟩, ⟨100, 100, 400, 300⟩, none⟩
                [⟨"S", ⟨0, 0, 1000, 800⟩, ⟨0, 0, 1000, 800⟩⟩] with
              relative_position := (29 / 800, 1 / 8) }
            [⟨"S", ⟨0, 0, 1000, 800⟩, ⟨0, 0, 1000, 800⟩⟩] false none none).x ∧
     (restore_geometry
        { save_geometry ⟨(1024, 768), (100, 100), (1 / 10, 1 / 10), "", (0, 0, 0, 0)⟩
            ⟨true, false, ⟨100, 100, 400, 300⟩, ⟨100, 100, 400, 300⟩, none⟩
            [⟨"S", ⟨0, 0, 1000, 800⟩, ⟨0, 0, 1000, 800⟩⟩] with
          relative_position := (29 / 800, 1 / 8) }
        [⟨"S", ⟨0, 0, 1000, 800⟩, ⟨0, 0, 1000, 800⟩⟩] false none none).x + 400
        ≤ (0 : Int) + 1000 ∧
     (0 : Int)
        ≤ (restore_geometry
            { save_geometry
                ⟨(1024, 768), (100, 100), (1 / 10, 1 / 10), "", (0, 0, 0, 0)⟩
                ⟨true, false, ⟨100, 100, 400, 300⟩, ⟨100, 100, 400, 300⟩, none⟩
                [⟨"S", ⟨0, 0, 1000, 800⟩, ⟨0, 0, 1000, 800⟩⟩] with
              relative_position := (29 / 800, 1 / 8) }
            [⟨"S", ⟨0, 0, 1000, 800⟩, ⟨0, 0, 1000, 800⟩⟩] false none none).y ∧
     (restore_geometry
        { save_geometry ⟨(1024, 768), (100, 100), (1 / 10, 1 / 10), "", (0, 0, 0, 0)⟩
            ⟨true, false, ⟨100, 100, 400, 300⟩, ⟨100, 100, 400, 300⟩, none⟩
            [⟨"S", ⟨0, 0, 1000, 800⟩, ⟨0, 0, 1000, 800⟩⟩] with
          relative_position := (29 / 800, 1 / 8) }
        [⟨"S", ⟨0, 0, 1000, 800⟩, ⟨0, 0, 1000, 800⟩⟩] false none none).y + 300
        ≤ (0 : Int) + 800) :=
  c4_round_trip_size_and_containment
    ⟨(1024, 768), (100, 100), (1 / 10, 1 / 10), "", (0, 0, 0, 0)⟩
    ⟨true, false, ⟨100, 100, 400, 300⟩, ⟨100, 100, 400, 300⟩, none⟩
    ⟨"S", ⟨0, 0, 1000, 800⟩, ⟨0, 0, 1000, 800⟩⟩ false none none (29 / 800, 1 / 8)
    rfl rfl (by decide) (by decide) (by decide) (by decide) (by decide) (by decide)
    (by decide) (by decide)


/-- C6 witness: instantiation of the amended statement at the concrete
zero-width scenario. -/
theorem c6_witness :
    (save_geometry ⟨(1024, 768), (100, 100), (3 / 4, 3 / 4), "", (0, 0, 0, 0)⟩
        ⟨true, false, ⟨100, 100, 400, 300⟩, ⟨100, 100, 400, 300⟩, none⟩
        [⟨"T", ⟨0, 0, 1000, 800⟩, ⟨0, 0, 0, 800⟩⟩]).relative_position
      = (1 / 10, 1 / 10) :=
  c6_degenerate_area_writes_fallback _ _ _
    ⟨"T", ⟨0, 0, 1000, 800⟩, ⟨0, 0, 0, 800⟩⟩ (Or.inl rfl) (by decide) (by decide)

theorem scrubVis_info : ∀ t : UiWidget, (scrubVis t).info = t.info
  | .node _ _ => rfl

theorem scrubXml_info : ∀ t : UiWidget, (scrubXml t).info = t.info
  | .node _ _ => rfl

theorem scrubVisList_length :
    ∀ cs : WidgetChildren, (scrubVisList cs).length = cs.length
  | .nil => rfl
  | .cons c rest => by
      simp only [scrubVisList, WidgetChildren.length, scrubVisList_length rest]

theorem scrubXmlList_isNil :
    ∀ cs : WidgetChildren, (scrubXmlList cs).isNil = cs.isNil
  | .nil => rfl
  | .cons _ _ => rfl

theorem excludedAsInspector_scrubVis (t : UiWidget) :
    (scrubVis t).excludedAsInspector = t.excludedAsInspector := by
  unfold UiWidget.excludedAsInspector
  rw [scrubVis_info]

theorem isHandle_scrubVis (t : UiWidget) :
    (scrubVis t).isHandle = t.isHandle := by
  unfold UiWidget.isHandle
  rw [scrubVis_info]

mutual
theorem visitRows_scrubVis : ∀ (t : UiWidget) (lvl : Nat) (parts : List String),
    visitRows t lvl parts = visitRows (scrubVis t) lvl parts
  | .node i cs, lvl, parts => by
      simp only [visitRows, scrubVis, scrubVisList_length]
      rw [visitRowsList_scrubVis cs cs.length 0 lvl parts]

theorem visitRowsList_scrubVis :
    ∀ (cs : WidgetChildren) (total idx lvl : Nat) (parts : List String),
    visitRowsList cs total idx lvl parts
      = visitRowsList (scrubVisList cs) total idx lvl parts
  | .nil, _, _, _, _ => rfl
  | .cons c rest, total, idx, lvl, parts => by
      simp only [visitRowsList, scrubVisList]
      rw [visitRowsList_scrubVis rest total (idx + 1) lvl parts]
      cases hex : (c.excludedAsInspector || c.isHandle) with
      | true =>
          simp [UiWidget.excludedAsInspector, UiWidget.isHandle, UiWidget.info,
            dummyInspectorInfo]
      | false =>
          simp only [Bool.false_eq_true, if_false]
          rw [excludedAsInspector_scrubVis, isHandle_scrubVis, hex]
          simp only [Bool.false_eq_true, if_false]
          rw [visitRows_scrubVis c (lvl + 1)
            (parts ++ [if idx = total - 1 then "    " else "│   "])]
end

theorem excludedAsInspector_scrubXml (t : UiWidget) :
    (scrubXml t).excludedAsInspector = t.excludedAsInspector := by
  unfold UiWidget.excludedAsInspector
  rw [scrubXml_info]

theorem info_scrubXml_handlePos (t : UiWidget) :
    (scrubXml t).info.handlePos = t.info.handlePos := by
  rw [scrubXml_info]

mutual
theorem xmlString_scrubXml : ∀ (t : UiWidget) (lvl : Nat),
    xmlString t lvl = xmlString (scrubXml t) lvl
  | .node i cs, lvl => by
      simp only [xmlString, scrubXml, scrubXmlList_isNil]
      rw [xmlChildrenString_scrubXml cs lvl]

theorem xmlChildrenString_scrubXml : ∀ (cs : WidgetChildren) (lvl : Nat),
    xmlChildrenString cs lvl = xmlChildrenString (scrubXmlList cs) lvl
  | .nil, _ => rfl
  | .cons c rest, lvl => by
      simp only [xmlChildrenString, scrubXmlList]
      rw [xmlChildrenString_scrubXml rest lvl]
      cases hex : c.excludedAsInspector with
      | true =>
          simp [UiWidget.excludedAsInspector, UiWidget.info, dummyInspectorInfo]
      | false =>
          simp only [Bool.false_eq_true, if_false]
          cases hh : c.info.handlePos with
          | some p =>
              have hch : c.isHandle = true := by
                unfold UiWidget.isHandle
                rw [hh]
                rfl
              rw [hch]
              simp only [if_true]
              have hrx : (UiWidget.node c.info WidgetChildren.nil).excludedAsInspector
                  = c.excludedAsInspector := rfl
              rw [hrx, hex]
              simp only [Bool.false_eq_true, if_false]
              have hri : (UiWidget.node c.info WidgetChildren.nil).info = c.info := rfl
              rw [hri, hh]
          | none =>
              have hch : c.isHandle = false := by
                unfold UiWidget.isHandle
                rw [hh]
                rfl
              rw [hch]
              simp only [Bool.false_eq_true, if_false]
              rw [excludedAsInspector_scrubXml, hex]
              simp only [Bool.false_eq_true, if_false]
              rw [info_scrubXml_handlePos c, hh]
              rw [xmlString_scrubXml c (lvl + 1)]
end

mutual
theorem visitRows_infos_not_excluded :
    ∀ (t : UiWidget) (lvl : Nat) (parts : List String),
    excludedInfo t.info = false →
    ∀ i ∈ (visitRows t lvl parts).map Prod.fst, excludedInfo i = false
  | .node inf cs, lvl, parts => by
      intro hroot i hi
      simp only [visitRows, List.map_cons, List.mem_cons] at hi
      rcases hi with rfl | hi
      · exact hroot
      · exact visitRowsList_infos_not_excluded cs cs.length 0 lvl parts i hi

theorem visitRowsList_infos_not_excluded :
    ∀ (cs : WidgetChildren) (total idx lvl : Nat) (parts : List String),
    ∀ i ∈ (visitRowsList cs total idx lvl parts).map Prod.fst,
      excludedInfo i = false
  | .nil, _, _, _, _ => by
      intro i hi
      simp [visitRowsList] at hi
  | .cons c rest, total, idx, lvl, parts => by
      intro i hi
      simp only [visitRowsList, List.map_append, List.mem_append] at hi
      rcases hi with hi | hi
      · by_cases hex : (c.excludedAsInspector || c.isHandle) = true
        · rw [hex] at hi
          simp at hi
        · simp only [Bool.not_eq_true] at hex
          rw [hex] at hi
          simp only [Bool.false_eq_true, if_false] at hi
          have hc : excludedInfo c.info = false := by
            unfold UiWidget.excludedAsInspector UiWidget.isHandle at hex
            unfold excludedInfo
            rcases Bool.or_eq_false_iff.mp hex with ⟨h1, h2⟩
            rcases Bool.or_eq_false_iff.mp h1 with ⟨h3, h4⟩
            simp [h2, h3, h4]
          exact visitRows_infos_not_excluded c (lvl + 1)
            (parts ++ [if idx = total - 1 then "    " else "│   "]) hc i hi
      · exact visitRowsList_infos_not_excluded rest total (idx + 1) lvl parts i hi
end

/-- C7 counterexample: on a main window with one EdgeResizeHandle child,
the XML dump does produce a node entry for the handle — a self-closing
EdgeResizeHandle element with its position attribute — contradicting the
claim that no node entry is produced for resize handles in either
rendering. -/
theorem c7_counterexample :
    xmlString exHandleTree 0
      = "<ViewMeshApp geometry=\"(0,0,800,600)\">\n  <EdgeResizeHandle name=\"\" geometry=\"(0,0,5,5)\" position=\"TOP_LEFT\" />\n</ViewMeshApp>\n" ∧
    "EdgeResizeHandle".data <:+: (xmlString exHandleTree 0).data := by
  constructor
  · rfl
  · decide

/-- C7 amended: both renderings exclude the inspector window and widgets it
owns entirely, and never recurse below an excluded child; EdgeResizeHandle
children produce no interactive row, and in the XML dump they contribute
exactly one self-closing line built from their own attributes, with their
subtree never entered. Formally: the row walk is unchanged when every
excluded child is replaced by a childless dummy inspector node; the XML
dump is unchanged when every inspector-related child is replaced by a
childless dummy and every handle child is stripped of its children; and
when the root is not itself excluded, no visited row targets an excluded
widget. -/
theorem c7_walkers_exclude_inspector_and_handles :
    (∀ (t : UiWidget) (lvl : Nat) (parts : List String),
        visitRows t lvl parts = visitRows (scrubVis t) lvl parts) ∧
    (∀ (t : UiWidget) (lvl : Nat), xmlString t lvl = xmlString (scrubXml t) lvl) ∧
    (∀ t : UiWidget, excludedInfo t.info = false →
        ∀ i ∈ visitInfos t, excludedInfo i = false) :=
  ⟨visitRows_scrubVis, xmlString_scrubXml,
   fun t h i hi => visitRows_infos_not_excluded t 0 [] h i hi⟩

/-- C7 witness: the amended theorem applied to the concrete
handle-child fixture. -/
theorem c7_witness : excludedInfo exRootInfo = false :=
  c7_walkers_exclude_inspector_and_handles.2.2 exHandleTree (by decide)
    exRootInfo (by decide)

/-- C8 counterexample: on the depth-3 fixture, the invisible grandchild
does appear in the walker node list (the visual walker applies no
visibility filter), contradicting the claim that its row is excluded. -/
theorem c8_counterexample :
    c8InvInfo ∈ visitInfos c8Tree ∧ c8InvInfo.isVisible = false := by
  constructor
  · decide
  · rfl

/-- C8 amended: on a depth-3 tree with one invisible grandchild, the walker
node list contains a row for every widget, the invisible grandchild
included, in depth-first order — its visible sibling is visited as well;
visibility is not a traversal filter. -/
theorem c8_all_rows_including_invisible :
    visitInfos c8Tree = [exRootInfo, c8ChildInfo, c8InvInfo, c8VisInfo] := by
  decide

end ViewMesh
